import Mathlib

/-!
Verification of the insurance fraud-detection backend (`backend/main.py`).

The Python source is shallowly embedded: Python strings become Lean
`String`s (manipulated through their underlying `List Char`), the pandas
reference tables become a `List String` of hospital names and a
`List (String × String)` of disease/treatment rows, and the regex-based
field extraction of `upload_claim` is compiled, pattern by pattern, into
explicit character-level matchers with the same backtracking behaviour.
-/

namespace FraudInsurance

/-- Models Python `str.isspace` characters relevant to `str.strip` and the
regex class `\s` (space, tab, newline, carriage return, vertical tab,
form feed). -/
def isPySpace (c : Char) : Bool :=
  c = ' ' || c = '\t' || c = '\n' || c = '\x0d' || c = '\x0b' || c = '\x0c'

/-- Models Python `str.lower` on a character sequence (ASCII case folding). -/
def lowerL (s : List Char) : List Char :=
  s.map Char.toLower

/-- Models Python `str.strip()` on a character sequence: drop leading and
trailing whitespace. -/
def stripL (s : List Char) : List Char :=
  ((s.dropWhile isPySpace).reverse.dropWhile isPySpace).reverse

/-- Models Python `str.split(',')`: split on every comma, keeping empty
pieces, so the empty string yields one empty piece. -/
def splitComma : List Char → List (List Char)
  | [] => [[]]
  | c :: t =>
    if c = ',' then [] :: splitComma t
    else
      match splitComma t with
      | [] => [[c]]
      | h :: r => (c :: h) :: r

/-- Python `str.strip()` on `String`. -/
def pyStrip (s : String) : String :=
  (stripL s.data).asString

/-- Python `str.lower()` on `String`. -/
def pyLower (s : String) : String :=
  (lowerL s.data).asString

/-- Python `str.split(',')` on `String`. -/
def pySplitComma (s : String) : List String :=
  (splitComma s.data).map List.asString

/-- The `claim_data` dictionary built by `upload_claim` before the fraud
check: the six extracted fields. -/
structure ClaimFields where
  hospital : String
  disease : String
  treatment : String
  amount : Int
  patientName : String
  claimId : String
deriving DecidableEq, Repr

/-- The fraud status strings produced by `check_fraud`. -/
inductive FraudStatus where
  | clean
  | suspicious
  | fraudulent
deriving DecidableEq, Repr

/-- The fallback hospital table built by `load_hospitals` when the Excel
dataset is absent or unreadable (the `HospitalName` column). -/
def load_hospitals : List String :=
  ["Apollo Hospital", "Max Healthcare", "Fortis Hospital", "AIIMS", "Manipal Hospital"]

/-- The fallback disease table built by `load_diseases` when the Excel
dataset is absent or unreadable: rows of (`Disease`, `Treatment`). -/
def load_diseases : List (String × String) :=
  [("Diabetes", "Insulin, Metformin"),
   ("Hypertension", "ACE Inhibitors, Diuretics"),
   ("Heart Disease", "Bypass Surgery, Angioplasty"),
   ("Cancer", "Chemotherapy, Radiation"),
   ("Pneumonia", "Antibiotics, Oxygen Therapy")]

/-- The shared tail of `check_fraud`: the amount rule followed by the clean
verdict (lines 116-124 of `main.py`). -/
def amountCheck (amount : Int) : FraudStatus × String :=
  if amount > 500000 then (.suspicious, "Unusually high claim amount")
  else (.clean, "All checks passed.")

/-- The pandas row selection
`diseases_df[diseases_df['Disease'].str.lower() == disease.lower()]`
followed by `.iloc[0]`: the first row whose disease name matches
case-insensitively. -/
def diseaseLookup (diseases : List (String × String)) (disease : String) :
    Option (String × String) :=
  diseases.find? (fun row => pyLower row.1 == pyLower disease)

/-- The list `[t.strip().lower() for t in valid_treatments_str.split(',')]`
built from a matched disease row. -/
def validTreatments (row : String × String) : List String :=
  (pySplitComma row.2).map (fun t => pyLower (pyStrip t))

/-- `check_fraud` from `main.py` (lines 71-124).  The function strips the
three string fields, then runs the ordered rule chain with early returns:
unknown hospital, unknown disease, treatment mismatch, high amount, clean. -/
def check_fraud (claim : ClaimFields) (hospitals : List String)
    (diseases : List (String × String)) : FraudStatus × String :=
  if pyStrip claim.hospital ≠ "" ∧ pyStrip claim.hospital ∉ hospitals then
    (.fraudulent, "Hospital not in dataset")
  else if pyStrip claim.disease ≠ "" then
    match diseaseLookup diseases (pyStrip claim.disease) with
    | none => (.fraudulent, "Disease not in dataset")
    | some row =>
      if pyStrip claim.treatment ≠ "" ∧
          pyLower (pyStrip claim.treatment) ∉ validTreatments row then
        (.fraudulent, "Treatment mismatch for disease")
      else amountCheck claim.amount
  else amountCheck claim.amount

/-- The hypothesis that none of the first three rules of `check_fraud`
fires: the stripped hospital is absent or known, and the stripped disease
is absent or matches a row whose treatments admit the stripped treatment. -/
def passesRules (c : ClaimFields) (hs : List String)
    (ds : List (String × String)) : Prop :=
  (pyStrip c.hospital = "" ∨ pyStrip c.hospital ∈ hs) ∧
  (pyStrip c.disease = "" ∨
    ∃ row, diseaseLookup ds (pyStrip c.disease) = some row ∧
      (pyStrip c.treatment = "" ∨ pyLower (pyStrip c.treatment) ∈ validTreatments row))

example : check_fraud ⟨"Apollo Hospital", "Diabetes", "Insulin", 1000, "", ""⟩
    load_hospitals load_diseases = (.clean, "All checks passed.") := by decide

example : check_fraud ⟨"Ghost Clinic", "", "", 0, "", ""⟩
    load_hospitals load_diseases = (.fraudulent, "Hospital not in dataset") := by decide

example : check_fraud ⟨"", "Diabetes", "Surgery", 0, "", ""⟩
    load_hospitals load_diseases = (.fraudulent, "Treatment mismatch for disease") := by decide

example : check_fraud ⟨"", "", "", 500001, "", ""⟩
    load_hospitals load_diseases = (.suspicious, "Unusually high claim amount") := by decide

example : check_fraud ⟨" Apollo Hospital ", "", "", 0, "", ""⟩
    ["Apollo Hospital"] [] = (.clean, "All checks passed.") := by decide

/-!
Character-level compilation of the six `re.search` patterns of
`upload_claim` (lines 196-201 of `main.py`).  All patterns use
`re.IGNORECASE`; `re.MULTILINE` only changes `^`/`$`, which no pattern
uses.  `.` does not match a newline, so a greedy `(.+)` with nothing after
it captures the rest of the current line and needs at least one character.
Greedy quantifiers backtrack; the matchers below carry exactly the
backtracking that is reachable for each concrete pattern.
-/

/-- Case-insensitive literal match (ASCII folding, as all pattern literals
are ASCII): on success returns the rest of the input after the literal. -/
def litCI : List Char → List Char → Option (List Char)
  | [], s => some s
  | _ :: _, [] => none
  | l :: lt, c :: ct => if l.toLower = c.toLower then litCI lt ct else none

/-- The regex fragment `\s*(.+)`: a greedy whitespace run, backtracked just
enough for `(.+)` to start at a non-newline character; returns the capture
of `(.+)`. -/
def wsDotPlus : List Char → Option (List Char)
  | [] => none
  | c :: t =>
    if isPySpace c then
      match wsDotPlus t with
      | some cap => some cap
      | none => if c = '\n' then none else some (c :: t.takeWhile (fun d => d ≠ '\n'))
    else some (c :: t.takeWhile (fun d => d ≠ '\n'))

/-- The regex fragment `:?\s*(.+)`: the optional colon is consumed
greedily, and dropped again if no capture can follow it. -/
def colonWsDotPlus (s : List Char) : Option (List Char) :=
  match s with
  | ':' :: t =>
    match wsDotPlus t with
    | some cap => some cap
    | none => wsDotPlus s
  | _ => wsDotPlus s

/-- The fragment `(?:\s+Name)?:?\s*(.+)` following the literal `Hospital`:
the optional ` Name` group is tried first and abandoned if the rest of the
pattern cannot match after it.  Inside the group, backtracking `\s+` is
vacuous because no whitespace character can begin `Name`. -/
def hospitalTail (s : List Char) : Option (List Char) :=
  let afterName :=
    if (s.takeWhile isPySpace).isEmpty then none
    else
      match litCI ['n', 'a', 'm', 'e'] (s.dropWhile isPySpace) with
      | some rest => colonWsDotPlus rest
      | none => none
  match afterName with
  | some cap => some cap
  | none => colonWsDotPlus s

/-- Attempts `Hospital(?:\s+Name)?:?\s*(.+)` at the current position. -/
def matchHospitalAt (s : List Char) : Option (List Char) :=
  match litCI ['h', 'o', 's', 'p', 'i', 't', 'a', 'l'] s with
  | some rest => hospitalTail rest
  | none => none

/-- `re.search`: try the pattern at every position, leftmost match wins. -/
def searchCap (matchAt : List Char → Option (List Char)) :
    List Char → Option (List Char)
  | [] => matchAt []
  | c :: t =>
    match matchAt (c :: t) with
    | some r => some r
    | none => searchCap matchAt t

/-- Characters of the regex class `[:\-\s]`. -/
def isDelim (c : Char) : Bool :=
  c = ':' || c = '-' || isPySpace c

/-- The fragment `[:\-\s]*(.+)`: like `wsDotPlus` with the delimiter
class. -/
def delimStarDotPlus : List Char → Option (List Char)
  | [] => none
  | c :: t =>
    if isDelim c then
      match delimStarDotPlus t with
      | some cap => some cap
      | none => if c = '\n' then none else some (c :: t.takeWhile (fun d => d ≠ '\n'))
    else some (c :: t.takeWhile (fun d => d ≠ '\n'))

/-- The fragment `[:\-\s]+(.+)`: at least one delimiter, then the greedy
remainder. -/
def delimPlusDotPlus : List Char → Option (List Char)
  | [] => none
  | c :: t => if isDelim c then delimStarDotPlus t else none

/-- Attempts `Disease[:\-\s]+(.+)` at the current position. -/
def matchDiseaseAt (s : List Char) : Option (List Char) :=
  match litCI ['d', 'i', 's', 'e', 'a', 's', 'e'] s with
  | some rest => delimPlusDotPlus rest
  | none => none

/-- Attempts `Treatment[:\-\s]+(.+)` at the current position. -/
def matchTreatmentAt (s : List Char) : Option (List Char) :=
  match litCI ['t', 'r', 'e', 'a', 't', 'm', 'e', 'n', 't'] s with
  | some rest => delimPlusDotPlus rest
  | none => none

/-- Characters of the capture class `[0-9,\.]` of the amount pattern. -/
def isAmtChar (c : Char) : Bool :=
  c.isDigit || c = ',' || c = '.'

/-- Characters of the class `[â‚¹$]`: the source file holds the rupee sign
as the three mojibake characters U+00E2, U+201A, U+00B9, plus the dollar
sign. -/
def isCurrency (c : Char) : Bool :=
  c = 'â' || c = '‚' || c = '¹' || c = '$'

/-- The fragment `:?\s*[â‚¹$]?[\s]*([0-9,\.]+)` following `Amount`.
Backtracking the optional atoms or the whitespace runs can never recover a
failure here, because a colon, a currency mark and a whitespace character
can each satisfy no later atom, so consuming greedily is exact. -/
def amountTail (s : List Char) : Option (List Char) :=
  let s1 := match s with
    | ':' :: t => t
    | _ => s
  let s2 := s1.dropWhile isPySpace
  let s3 := match s2 with
    | c :: t => if isCurrency c then t else s2
    | [] => s2
  let s4 := s3.dropWhile isPySpace
  match s4 with
  | c :: t => if isAmtChar c then some ((c :: t).takeWhile isAmtChar) else none
  | [] => none

/-- Attempts `(?:Claimed\s+)?Amount:?\s*[â‚¹$]?[\s]*([0-9,\.]+)` at the
current position: the `Claimed` branch is tried first, and cannot overlap
the plain branch at the same position. -/
def matchAmountAt (s : List Char) : Option (List Char) :=
  let withClaimed :=
    match litCI ['c', 'l', 'a', 'i', 'm', 'e', 'd'] s with
    | some r1 =>
      match r1 with
      | c :: t =>
        if isPySpace c then
          match litCI ['a', 'm', 'o', 'u', 'n', 't'] (t.dropWhile isPySpace) with
          | some r2 => amountTail r2
          | none => none
        else none
      | [] => none
    | none => none
  match withClaimed with
  | some cap => some cap
  | none =>
    match litCI ['a', 'm', 'o', 'u', 'n', 't'] s with
    | some rest => amountTail rest
    | none => none

/-- The fragment `\s+LIT`: a mandatory whitespace run then a literal; the
run cannot usefully backtrack because whitespace never begins the
literal. -/
def spacePlusThen (lit : List Char) (s : List Char) : Option (List Char) :=
  match s with
  | c :: t => if isPySpace c then litCI lit (t.dropWhile isPySpace) else none
  | [] => none

/-- Attempts `(?:Policy\s+Holder|Patient)\s+Name:?\s*(.+)` at the current
position; the two alternatives are tried in order and are mutually
exclusive on any input since they diverge at their second letter. -/
def matchPatientAt (s : List Char) : Option (List Char) :=
  let viaPolicy :=
    match litCI ['p', 'o', 'l', 'i', 'c', 'y'] s with
    | some r1 =>
      match spacePlusThen ['h', 'o', 'l', 'd', 'e', 'r'] r1 with
      | some r2 =>
        match spacePlusThen ['n', 'a', 'm', 'e'] r2 with
        | some r3 => colonWsDotPlus r3
        | none => none
      | none => none
    | none => none
  match viaPolicy with
  | some cap => some cap
  | none =>
    match litCI ['p', 'a', 't', 'i', 'e', 'n', 't'] s with
    | some r1 =>
      match spacePlusThen ['n', 'a', 'm', 'e'] r1 with
      | some r2 => colonWsDotPlus r2
      | none => none
    | none => none

/-- Characters of the capture class `[\w\d/]` (ASCII word model). -/
def isWordChar (c : Char) : Bool :=
  c.isAlphanum || c = '_' || c = '/'

/-- The fragment `:?\s*([\w\d/]+)` following the claim-id keyword; as in
`amountTail`, greedy consumption is exact. -/
def wordTail (s : List Char) : Option (List Char) :=
  let s1 := match s with
    | ':' :: t => t
    | _ => s
  let s2 := s1.dropWhile isPySpace
  match s2 with
  | c :: t => if isWordChar c then some ((c :: t).takeWhile isWordChar) else none
  | [] => none

/-- Attempts `Claim\s+(?:No|ID|Number):?\s*([\w\d/]+)` at the current
position.  The alternatives are tried in order with backtracking, so on
`Claim Notice 5` the `No` branch wins and the capture is `tice`, exactly
as in Python. -/
def matchClaimIdAt (s : List Char) : Option (List Char) :=
  match litCI ['c', 'l', 'a', 'i', 'm'] s with
  | some r1 =>
    match r1 with
    | c :: t =>
      if isPySpace c then
        let r2 := t.dropWhile isPySpace
        match (match litCI ['n', 'o'] r2 with
               | some r3 => wordTail r3
               | none => none) with
        | some cap => some cap
        | none =>
          match (match litCI ['i', 'd'] r2 with
                 | some r3 => wordTail r3
                 | none => none) with
          | some cap => some cap
          | none =>
            match litCI ['n', 'u', 'm', 'b', 'e', 'r'] r2 with
            | some r3 => wordTail r3
            | none => none
      else none
    | [] => none
  | none => none

/-- The post-processing `match.group(1).strip().split('\n')[0]` applied to
the five line-valued captures. -/
def firstLineOfStrip (cap : List Char) : String :=
  ((stripL cap).takeWhile (fun d => d ≠ '\n')).asString

/-- Digit-sequence value, for the integer part of a parsed amount. -/
def digitsToNat (s : List Char) : Nat :=
  s.foldl (fun a c => 10 * a + (c.toNat - '0'.toNat)) 0

/-- Models `int(float(s))` on a comma-free amount string drawn from the
class `[0-9\.]*`: defined when the string holds at least one digit, only
digits and dots, and at most one dot; its value is then the integer part,
namely the digits before the dot.  (Binary floating point is idealised as
exact decimal arithmetic; the claims never exercise inputs long enough for
rounding to differ.)  Every other string makes `float` raise
`ValueError`. -/
def floatIntValue (s : List Char) : Option Int :=
  if s.any Char.isDigit ∧ s.all (fun c => c.isDigit || c = '.') ∧ s.count '.' ≤ 1 then
    some (Int.ofNat (digitsToNat (s.takeWhile Char.isDigit)))
  else none

/-- The amount post-processing of `upload_claim` (lines 221-226):
`group(1).replace(',', '').strip()`, then `int(float(...))` with a fallback
of `0` on `ValueError`. -/
def amountFromCapture (cap : List Char) : Int :=
  match floatIntValue (stripL (cap.filter (fun c => c ≠ ','))) with
  | some v => v
  | none => 0

/-- The field-extraction block of `upload_claim` (lines 196-241): six
independent `re.search` calls, each field defaulting to the empty string
(amount: 0) when its pattern finds no match. -/
def parseFields (text : String) : ClaimFields :=
  { hospital :=
      match searchCap matchHospitalAt text.data with
      | some cap => firstLineOfStrip cap
      | none => ""
    disease :=
      match searchCap matchDiseaseAt text.data with
      | some cap => firstLineOfStrip cap
      | none => ""
    treatment :=
      match searchCap matchTreatmentAt text.data with
      | some cap => firstLineOfStrip cap
      | none => ""
    amount :=
      match searchCap matchAmountAt text.data with
      | some cap => amountFromCapture cap
      | none => 0
    patientName :=
      match searchCap matchPatientAt text.data with
      | some cap => firstLineOfStrip cap
      | none => ""
    claimId :=
      match searchCap matchClaimIdAt text.data with
      | some cap => (stripL cap).asString
      | none => "" }

example : parseFields "Hospital: Apollo Hospital\nDisease: Diabetes\nTreatment: Insulin\nAmount: 1000" =
    ⟨"Apollo Hospital", "Diabetes", "Insulin", 1000, "", ""⟩ := by decide

example : parseFields "lorem ipsum" = ⟨"", "", "", 0, "", ""⟩ := by decide

example : parseFields "Claim Number: ABC123" = ⟨"", "", "", 0, "", "ABC123"⟩ := by decide

example : parseFields "Patient Name: Jo\nClaimed Amount: $ 1,234.56" =
    ⟨"", "", "", 1234, "Jo", ""⟩ := by decide

example : searchCap matchHospitalAt "Hospital:\n\n".data = some [':'] := by decide

example : searchCap matchHospitalAt "Hospital:   ".data = some [' '] := by decide

example : searchCap matchHospitalAt "xx hospital  name :  Apollo  ".data =
    some ":  Apollo  ".data := by decide

example : searchCap matchDiseaseAt "Disease:".data = none := by decide

example : searchCap matchDiseaseAt "Disease \n Flu".data = some "Flu".data := by decide

example : searchCap matchAmountAt "Amount ,,".data = some [',', ','] := by decide

example : searchCap matchAmountAt "Claimed X Amount 7".data = some ['7'] := by decide

example : searchCap matchClaimIdAt "Claim Notice 5".data = some "tice".data := by decide

example : searchCap matchClaimIdAt "Claim No".data = none := by decide

example : searchCap matchClaimIdAt "Claim ID/77".data = some "/77".data := by decide

example : searchCap matchPatientAt "Policy Holder Nam Patient Name: C".data =
    some ['C'] := by decide

/-!
Model of the `upload_claim` endpoint (lines 173-269).  File storage and
the OCR/PDF engines are external black boxes, so the handler is modelled
as a function of the extracted text; an exception raised anywhere in the
`try` block is either a `fastapi.HTTPException` or any other Python
exception, and the `except`/`finally` clauses translate the outcome and
clean up the temporary file.
-/

/-- The two shapes of exception distinguished by `upload_claim`:
`HTTPException(status_code, detail)` and every other Python exception,
carried with its message. -/
inductive PyExc where
  | http (statusCode : Nat) (detail : String)
  | other (msg : String)
deriving DecidableEq, Repr

/-- The success payload of `upload_claim`: the extracted fields together
with the fraud verdict appended to them. -/
structure UploadPayload where
  extracted : ClaimFields
  fraudStatus : FraudStatus
  fraudReason : String
deriving DecidableEq, Repr

/-- The body of the `try` block after text extraction (lines 190-256):
empty extracted text raises `HTTPException(400, ...)`; otherwise the text
is parsed, classified, and returned as the success payload. -/
def uploadBody (text : String) (hospitals : List String)
    (diseases : List (String × String)) : Except PyExc UploadPayload :=
  if text = "" then
    .error (.http 400 "Failed to extract text from the document.")
  else
    let fields := parseFields text
    let verdict := check_fraud fields hospitals diseases
    .ok ⟨fields, verdict.1, verdict.2⟩

/-- The `except` clauses (lines 258-262): an `HTTPException` is re-raised
unchanged, any other exception becomes `HTTPException(500, ...)` wrapping
its message, and a successful body is returned as is. -/
def translateExc (r : Except PyExc UploadPayload) : Except PyExc UploadPayload :=
  match r with
  | .error (.http code detail) => .error (.http code detail)
  | .error (.other msg) => .error (.http 500 ("An unexpected error occurred: " ++ msg))
  | .ok v => .ok v

/-- The whole handler around an arbitrary `try`-block outcome `body`, with
the filesystem as a list of file names: the temporary file is created
first, and the `finally` clause (lines 263-269) removes it whatever the
outcome was, before the translated result leaves the handler. -/
def upload_claim (fs : List String) (tempName : String)
    (body : Except PyExc UploadPayload) :
    Except PyExc UploadPayload × List String :=
  let fsCreated := tempName :: fs
  let fsCleaned := fsCreated.filter (fun f => f ≠ tempName)
  (translateExc body, fsCleaned)

example : (upload_claim ["keep.txt"] "temp_a.pdf" (uploadBody "" [] [])).1 =
    .error (.http 400 "Failed to extract text from the document.") := rfl

example : (upload_claim ["keep.txt"] "temp_a.pdf" (uploadBody "" [] [])).2 =
    ["keep.txt"] := by decide

/-! Helper lemmas about the rule chain of `check_fraud`. -/

lemma hospNoFire {c : ClaimFields} {hs : List String}
    (hh : pyStrip c.hospital = "" ∨ pyStrip c.hospital ∈ hs) :
    ¬(pyStrip c.hospital ≠ "" ∧ pyStrip c.hospital ∉ hs) := by
  rcases hh with h | h
  · exact fun hc => hc.1 h
  · exact fun hc => hc.2 h

lemma check_fraud_hospital_fire (c : ClaimFields) (hs : List String)
    (ds : List (String × String)) (h1 : pyStrip c.hospital ≠ "")
    (h2 : pyStrip c.hospital ∉ hs) :
    check_fraud c hs ds = (.fraudulent, "Hospital not in dataset") := by
  unfold check_fraud
  rw [if_pos ⟨h1, h2⟩]

lemma check_fraud_disease_fire (c : ClaimFields) (hs : List String)
    (ds : List (String × String))
    (hh : pyStrip c.hospital = "" ∨ pyStrip c.hospital ∈ hs)
    (hd : pyStrip c.disease ≠ "")
    (hl : diseaseLookup ds (pyStrip c.disease) = none) :
    check_fraud c hs ds = (.fraudulent, "Disease not in dataset") := by
  unfold check_fraud
  rw [if_neg (hospNoFire hh), if_pos hd]
  simp only [hl]

lemma check_fraud_treatment_fire (c : ClaimFields) (hs : List String)
    (ds : List (String × String)) (row : String × String)
    (hh : pyStrip c.hospital = "" ∨ pyStrip c.hospital ∈ hs)
    (hd : pyStrip c.disease ≠ "")
    (hl : diseaseLookup ds (pyStrip c.disease) = some row)
    (ht1 : pyStrip c.treatment ≠ "")
    (ht2 : pyLower (pyStrip c.treatment) ∉ validTreatments row) :
    check_fraud c hs ds = (.fraudulent, "Treatment mismatch for disease") := by
  unfold check_fraud
  rw [if_neg (hospNoFire hh), if_pos hd]
  simp only [hl]
  rw [if_pos ⟨ht1, ht2⟩]

lemma check_fraud_amount (c : ClaimFields) (hs : List String)
    (ds : List (String × String)) (hp : passesRules c hs ds) :
    check_fraud c hs ds = amountCheck c.amount := by
  obtain ⟨hh, hd⟩ := hp
  unfold check_fraud
  rw [if_neg (hospNoFire hh)]
  by_cases hde : pyStrip c.disease = ""
  · rw [if_neg (fun hc => hc hde)]
  · rw [if_pos hde]
    rcases hd with hd | ⟨row, hrow, htr⟩
    · exact absurd hd hde
    · simp only [hrow]
      rw [if_neg (by
        rcases htr with ht | ht
        · exact fun hc => hc.1 ht
        · exact fun hc => hc.2 ht)]

lemma amountCheck_fst_ne_fraudulent (a : Int) :
    (amountCheck a).1 ≠ FraudStatus.fraudulent := by
  unfold amountCheck
  split <;> decide

lemma amountCheck_snd_cases (a : Int) :
    (amountCheck a).2 = "Unusually high claim amount" ∨
    (amountCheck a).2 = "All checks passed." := by
  unfold amountCheck
  split
  · exact Or.inl rfl
  · exact Or.inr rfl

/-! Helper lemmas about string splitting and list membership. -/

lemma splitComma_append (a b : List Char) (ha : ¬ ',' ∈ a) :
    splitComma (a ++ ',' :: b) = a :: splitComma b := by
  induction a with
  | nil => simp [splitComma]
  | cons c t ih =>
    have hc : ¬(c = ',') := fun h => ha (h ▸ List.mem_cons_self c t)
    have ht : ¬ ',' ∈ t := fun h => ha (List.mem_cons_of_mem c h)
    simp only [List.cons_append, splitComma, if_neg hc, List.append_eq, ih ht]

lemma dataAsString (s : String) : s.data.asString = s := rfl

lemma pySplitComma_pair (e1 e2 : String) (h1 : ¬ ',' ∈ e1.data) :
    pySplitComma (e1 ++ "," ++ e2) = e1 :: (splitComma e2.data).map List.asString := by
  unfold pySplitComma
  rw [String.data_append, String.data_append]
  have : ("," : String).data ++ e2.data = ',' :: e2.data := rfl
  rw [List.append_assoc, this, splitComma_append e1.data e2.data h1]
  simp [dataAsString]

lemma contains_filter_self (l : List String) (t : String) :
    ((l.filter (fun f => f ≠ t)).contains t) = false := by
  simp

/-- C1 (counterexample to the claim as stated): the ClaimFields whose
hospital is `" Apollo Hospital "` has a non-empty hospital with no exact
case-sensitive match in the table `["Apollo Hospital"]`, so the claim
demands `(fraudulent, "Hospital not in dataset")`; but `check_fraud`
strips the field before the lookup, finds the stripped name in the table,
and returns the clean verdict. -/
theorem check_fraud_chain_counterexample :
    (ClaimFields.mk " Apollo Hospital " "" "" 0 "" "").hospital ≠ "" ∧
    (ClaimFields.mk " Apollo Hospital " "" "" 0 "" "").hospital ∉ ["Apollo Hospital"] ∧
    check_fraud (ClaimFields.mk " Apollo Hospital " "" "" 0 "" "")
        ["Apollo Hospital"] [] ≠ (.fraudulent, "Hospital not in dataset") ∧
    check_fraud (ClaimFields.mk " Apollo Hospital " "" "" 0 "" "")
        ["Apollo Hospital"] [] = (.clean, "All checks passed.") := by
  refine ⟨by decide, by decide, by decide, by decide⟩

/-- C1 (amended): `check_fraud` evaluates its rules as an ordered
short-circuiting chain over the whitespace-stripped fields: if the
stripped hospital is non-empty and has no exact case-sensitive match in
the hospital table, the result is `(fraudulent, "Hospital not in
dataset")`; otherwise if the stripped disease is non-empty and has no
case-insensitive match in the disease table, `(fraudulent, "Disease not
in dataset")`; otherwise if the disease matched and the stripped
treatment is non-empty and its lowercase form is not among the
comma-split, trimmed, lowercased treatments of the matched row,
`(fraudulent, "Treatment mismatch for disease")`; otherwise if the
amount exceeds 500000, `(suspicious, "Unusually high claim amount")`;
otherwise `(clean, "All checks passed.")`. -/
theorem check_fraud_ordered_chain (c : ClaimFields) (hs : List String)
    (ds : List (String × String)) :
    (pyStrip c.hospital ≠ "" → pyStrip c.hospital ∉ hs →
      check_fraud c hs ds = (.fraudulent, "Hospital not in dataset")) ∧
    ((pyStrip c.hospital = "" ∨ pyStrip c.hospital ∈ hs) →
      pyStrip c.disease ≠ "" → diseaseLookup ds (pyStrip c.disease) = none →
      check_fraud c hs ds = (.fraudulent, "Disease not in dataset")) ∧
    (∀ row, (pyStrip c.hospital = "" ∨ pyStrip c.hospital ∈ hs) →
      pyStrip c.disease ≠ "" → diseaseLookup ds (pyStrip c.disease) = some row →
      pyStrip c.treatment ≠ "" → pyLower (pyStrip c.treatment) ∉ validTreatments row →
      check_fraud c hs ds = (.fraudulent, "Treatment mismatch for disease")) ∧
    (passesRules c hs ds → 500000 < c.amount →
      check_fraud c hs ds = (.suspicious, "Unusually high claim amount")) ∧
    (passesRules c hs ds → c.amount ≤ 500000 →
      check_fraud c hs ds = (.clean, "All checks passed.")) := by
  refine ⟨check_fraud_hospital_fire c hs ds,
          check_fraud_disease_fire c hs ds,
          fun row hh hd hl => check_fraud_treatment_fire c hs ds row hh hd hl,
          fun hp hlt => ?_, fun hp hle => ?_⟩
  · rw [check_fraud_amount c hs ds hp]
    unfold amountCheck
    rw [if_pos hlt]
  · rw [check_fraud_amount c hs ds hp]
    unfold amountCheck
    rw [if_neg (not_lt.mpr hle)]

/-- Witness for C1: each rule of the chain fired at a concrete input. -/
theorem check_fraud_ordered_chain_witness :
    check_fraud ⟨"Ghost Clinic", "", "", 0, "", ""⟩ ["Apollo Hospital"] [] =
      (.fraudulent, "Hospital not in dataset") ∧
    check_fraud ⟨"", "Flu", "", 0, "", ""⟩ [] [("Diabetes", "Insulin, Metformin")] =
      (.fraudulent, "Disease not in dataset") ∧
    check_fraud ⟨"", "Diabetes", "Surgery", 0, "", ""⟩ []
        [("Diabetes", "Insulin, Metformin")] =
      (.fraudulent, "Treatment mismatch for disease") ∧
    check_fraud ⟨"", "", "", 500001, "", ""⟩ [] [] =
      (.suspicious, "Unusually high claim amount") ∧
    check_fraud ⟨"", "", "", 500000, "", ""⟩ [] [] = (.clean, "All checks passed.") :=
  ⟨(check_fraud_ordered_chain _ _ _).1 (by decide) (by decide),
   (check_fraud_ordered_chain _ _ _).2.1 (Or.inl (by decide)) (by decide) (by decide),
   (check_fraud_ordered_chain _ _ _).2.2.1 ("Diabetes", "Insulin, Metformin")
     (Or.inl (by decide)) (by decide) (by decide) (by decide) (by decide),
   (check_fraud_ordered_chain _ _ _).2.2.2.1
     ⟨Or.inl (by decide), Or.inl (by decide)⟩ (by decide),
   (check_fraud_ordered_chain _ _ _).2.2.2.2
     ⟨Or.inl (by decide), Or.inl (by decide)⟩ (by decide)⟩

/-- C2 (counterexample to the claim as stated): the ClaimFields whose
hospital is `" X"` is literally present in the hospital table `[" X"]`
and has an empty disease, so the claim demands a non-fraudulent result;
but `check_fraud` strips the field to `"X"`, which is not in the table,
and rule 1 fires. -/
theorem empty_fields_skip_checks_counterexample :
    (ClaimFields.mk " X" "" "" 0 "" "").hospital ∈ [" X"] ∧
    (ClaimFields.mk " X" "" "" 0 "" "").disease = "" ∧
    (check_fraud (ClaimFields.mk " X" "" "" 0 "" "") [" X"] []).1 =
      FraudStatus.fraudulent := by
  refine ⟨by decide, by decide, by decide⟩

/-- C2 (amended): empty fields skip their checks rather than failing
them: for every ClaimFields with empty hospital, `check_fraud` never
returns the reason "Hospital not in dataset"; and for every ClaimFields
whose whitespace-stripped hospital is present in the hospital table and
whose disease is empty, the result is never fraudulent (rules 1-3 cannot
fire; only the amount rule may still apply). -/
theorem empty_fields_skip_checks (c : ClaimFields) (hs : List String)
    (ds : List (String × String)) :
    (c.hospital = "" → (check_fraud c hs ds).2 ≠ "Hospital not in dataset") ∧
    (pyStrip c.hospital ∈ hs → c.disease = "" →
      (check_fraud c hs ds).1 ≠ FraudStatus.fraudulent) := by
  constructor
  · intro h
    have hs0 : pyStrip c.hospital = "" := by rw [h]; rfl
    unfold check_fraud
    rw [if_neg (hospNoFire (Or.inl hs0))]
    by_cases hde : pyStrip c.disease = ""
    · rw [if_neg (fun hc => hc hde)]
      rcases amountCheck_snd_cases c.amount with h2 | h2 <;> rw [h2] <;> decide
    · rw [if_pos hde]
      cases hl : diseaseLookup ds (pyStrip c.disease) with
      | none => simp only [hl]; decide
      | some row =>
        simp only [hl]
        by_cases htr : pyStrip c.treatment ≠ "" ∧
            pyLower (pyStrip c.treatment) ∉ validTreatments row
        · rw [if_pos htr]; decide
        · rw [if_neg htr]
          rcases amountCheck_snd_cases c.amount with h2 | h2 <;> rw [h2] <;> decide
  · intro hmem hd
    have hp : passesRules c hs ds :=
      ⟨Or.inr hmem, Or.inl (by rw [hd]; rfl)⟩
    rw [check_fraud_amount c hs ds hp]
    exact amountCheck_fst_ne_fraudulent c.amount

/-- Witness for C2: both conjuncts at concrete inputs. -/
theorem empty_fields_skip_checks_witness :
    (check_fraud ⟨"", "NoSuchDisease", "", 0, "", ""⟩ [] []).2 ≠
      "Hospital not in dataset" ∧
    (check_fraud ⟨" Apollo Hospital ", "", "", 600000, "", ""⟩
        ["Apollo Hospital"] []).1 ≠ FraudStatus.fraudulent :=
  ⟨(empty_fields_skip_checks _ _ _).1 rfl,
   (empty_fields_skip_checks _ _ _).2 (by decide) rfl⟩

/-- C3: the amount threshold is strictly greater-than 500000: whenever
the other fields pass rules 1-3, the claim with amount 500001 is
`(suspicious, "Unusually high claim amount")` while the same claim with
amount exactly 500000 is `(clean, "All checks passed.")`. -/
theorem amount_threshold_strict (h d t pn ci : String) (hs : List String)
    (ds : List (String × String))
    (hp : passesRules ⟨h, d, t, 500001, pn, ci⟩ hs ds) :
    check_fraud ⟨h, d, t, 500001, pn, ci⟩ hs ds =
      (.suspicious, "Unusually high claim amount") ∧
    check_fraud ⟨h, d, t, 500000, pn, ci⟩ hs ds =
      (.clean, "All checks passed.") := by
  have hp2 : passesRules ⟨h, d, t, 500000, pn, ci⟩ hs ds := hp
  constructor
  · rw [check_fraud_amount _ hs ds hp]
    rfl
  · rw [check_fraud_amount _ hs ds hp2]
    rfl

/-- Witness for C3: the valid/matching fields of the default tables. -/
theorem amount_threshold_strict_witness :
    check_fraud ⟨"Apollo Hospital", "Diabetes", "Insulin", 500001, "", ""⟩
      load_hospitals load_diseases = (.suspicious, "Unusually high claim amount") ∧
    check_fraud ⟨"Apollo Hospital", "Diabetes", "Insulin", 500000, "", ""⟩
      load_hospitals load_diseases = (.clean, "All checks passed.") :=
  amount_threshold_strict "Apollo Hospital" "Diabetes" "Insulin" "" ""
    load_hospitals load_diseases
    ⟨Or.inr (by decide),
     Or.inr ⟨("Diabetes", "Insulin, Metformin"), by decide, Or.inr (by decide)⟩⟩

/-- C4: treatment matching is case-insensitive and whitespace-insensitive
over the comma-separated list: when the disease "Diabetes" resolves to a
row whose treatment entry is two comma-free pieces stripping to
"Insulin" and "Metformin", any claim treatment whose stripped lowercase
form is "insulin" never yields the reason "Treatment mismatch for
disease". -/
theorem treatment_match_case_insensitive (c : ClaimFields) (e1 e2 dn : String)
    (hs : List String) (ds : List (String × String))
    (hdis : c.disease = "Diabetes")
    (ht : pyLower (pyStrip c.treatment) = "insulin")
    (he1 : pyStrip e1 = "Insulin") (_he2 : pyStrip e2 = "Metformin")
    (hc1 : ¬ ',' ∈ e1.data)
    (hd : diseaseLookup ds "Diabetes" = some (dn, e1 ++ "," ++ e2)) :
    (check_fraud c hs ds).2 ≠ "Treatment mismatch for disease" := by
  have hvt : pyLower (pyStrip c.treatment) ∈ validTreatments (dn, e1 ++ "," ++ e2) := by
    unfold validTreatments
    rw [show (dn, e1 ++ "," ++ e2).2 = e1 ++ "," ++ e2 from rfl,
        pySplitComma_pair e1 e2 hc1, List.map_cons, he1, ht]
    exact List.mem_cons_self _ _
  have hds : pyStrip c.disease = "Diabetes" := by rw [hdis]; rfl
  unfold check_fraud
  by_cases hh : pyStrip c.hospital ≠ "" ∧ pyStrip c.hospital ∉ hs
  · rw [if_pos hh]; decide
  · rw [if_neg hh]
    rw [if_pos (show pyStrip c.disease ≠ "" by rw [hds]; decide)]
    simp only [hds, hd]
    rw [if_neg (fun hc => hc.2 hvt)]
    rcases amountCheck_snd_cases c.amount with h2 | h2 <;> rw [h2] <;> decide

/-- Witness for C4: an upper-case padded treatment against a padded
table entry. -/
theorem treatment_match_case_insensitive_witness :
    (check_fraud ⟨"", "Diabetes", " INSULIN ", 0, "", ""⟩ []
      [("Diabetes", " Insulin , Metformin ")]).2 ≠
      "Treatment mismatch for disease" :=
  treatment_match_case_insensitive ⟨"", "Diabetes", " INSULIN ", 0, "", ""⟩
    " Insulin " " Metformin " "Diabetes" [] [("Diabetes", " Insulin , Metformin ")]
    rfl (by decide) (by decide) (by decide) (by decide) (by decide)

/-- C5: round-trip through parser and classifier: the six field patterns
extract hospital "Apollo Hospital", disease "Diabetes", treatment
"Insulin" and amount 1000 from the given text, and classifying those
fields against the default fallback tables yields the clean verdict. -/
theorem parse_classify_round_trip :
    parseFields "Hospital: Apollo Hospital\nDisease: Diabetes\nTreatment: Insulin\nAmount: 1000" =
      ⟨"Apollo Hospital", "Diabetes", "Insulin", 1000, "", ""⟩ ∧
    check_fraud ⟨"Apollo Hospital", "Diabetes", "Insulin", 1000, "", ""⟩
      load_hospitals load_diseases = (.clean, "All checks passed.") := by
  refine ⟨by decide, by decide⟩

/-- C6: best-effort parsing with defaults: when none of the six patterns
matches the text, every string field is empty and the amount is 0; a
matched amount capture whose numeral fails to parse also yields 0; and
classifying the all-empty ClaimFields returns the clean verdict against
any tables, since no check has a non-empty field to evaluate. -/
theorem unmatched_patterns_default_clean (text : String) (hs : List String)
    (ds : List (String × String))
    (h1 : searchCap matchHospitalAt text.data = none)
    (h2 : searchCap matchDiseaseAt text.data = none)
    (h3 : searchCap matchTreatmentAt text.data = none)
    (h4 : searchCap matchAmountAt text.data = none)
    (h5 : searchCap matchPatientAt text.data = none)
    (h6 : searchCap matchClaimIdAt text.data = none) :
    parseFields text = ⟨"", "", "", 0, "", ""⟩ ∧
    (∀ cap, floatIntValue (stripL (cap.filter (fun c => c ≠ ','))) = none →
      amountFromCapture cap = 0) ∧
    check_fraud ⟨"", "", "", 0, "", ""⟩ hs ds = (.clean, "All checks passed.") := by
  refine ⟨?_, ?_, ?_⟩
  · unfold parseFields
    rw [h1, h2, h3, h4, h5, h6]
  · intro cap hcap
    unfold amountFromCapture
    rw [hcap]
  · have hp : passesRules ⟨"", "", "", 0, "", ""⟩ hs ds :=
      ⟨Or.inl rfl, Or.inl rfl⟩
    rw [check_fraud_amount _ hs ds hp]
    rfl

/-- Witness for C6: a text matching no pattern, and a digit-free
capture. -/
theorem unmatched_patterns_default_clean_witness :
    parseFields "x" = ⟨"", "", "", 0, "", ""⟩ ∧
    amountFromCapture [','] = 0 ∧
    check_fraud ⟨"", "", "", 0, "", ""⟩ [] [] = (.clean, "All checks passed.") :=
  ⟨(unmatched_patterns_default_clean "x" [] [] (by decide) (by decide) (by decide)
      (by decide) (by decide) (by decide)).1,
   (unmatched_patterns_default_clean "x" [] [] (by decide) (by decide) (by decide)
      (by decide) (by decide) (by decide)).2.1 [','] (by decide),
   (unmatched_patterns_default_clean "x" [] [] (by decide) (by decide) (by decide)
      (by decide) (by decide) (by decide)).2.2⟩

/-- C7: classification is a pure, deterministic function of its three
inputs: in the embedding `check_fraud` consumes only the ClaimFields and
the two tables, so any two runs on the same triple produce the identical
verdict pair. -/
theorem check_fraud_deterministic (c : ClaimFields) (hs : List String)
    (ds : List (String × String)) (v1 v2 : FraudStatus × String)
    (r1 : v1 = check_fraud c hs ds) (r2 : v2 = check_fraud c hs ds) :
    v1 = v2 :=
  r1.trans r2.symm

/-- Witness for C7: two runs on the concrete clean claim. -/
theorem check_fraud_deterministic_witness :
    ((FraudStatus.clean, "All checks passed.") : FraudStatus × String) =
      ((FraudStatus.clean, "All checks passed.") : FraudStatus × String) :=
  check_fraud_deterministic ⟨"Apollo Hospital", "Diabetes", "Insulin", 1000, "", ""⟩
    load_hospitals load_diseases _ _ (by decide) (by decide)

/-- C8: error surface of the upload operation: empty extracted text
leaves the handler as the client-input error `HTTPException(400, "Failed
to extract text from the document.")`; any other unexpected exception
leaves it as the internal error `HTTPException(500, ...)` carrying the
message; and an `HTTPException` raised in the body — in particular the
extraction failure — is re-raised unchanged, never converted into an
internal error. -/
theorem upload_error_surface :
    (∀ (fs : List String) (tmp : String) (hs : List String)
        (ds : List (String × String)),
      (upload_claim fs tmp (uploadBody "" hs ds)).1 =
        .error (.http 400 "Failed to extract text from the document.")) ∧
    (∀ (fs : List String) (tmp msg : String),
      (upload_claim fs tmp (.error (.other msg))).1 =
        .error (.http 500 ("An unexpected error occurred: " ++ msg))) ∧
    (∀ (fs : List String) (tmp : String) (code : Nat) (detail : String),
      (upload_claim fs tmp (.error (.http code detail))).1 =
        .error (.http code detail)) :=
  ⟨fun _ _ _ _ => rfl, fun _ _ _ => rfl, fun _ _ _ _ => rfl⟩

/-- C9: temporary-file cleanup on every exit path: whatever the outcome
of the try block — success, the extraction client error, or any
unexpected exception — the temporary file is no longer present in the
filesystem when `upload_claim` exits. -/
theorem temp_file_cleanup (fs : List String) (tempName : String)
    (body : Except PyExc UploadPayload) :
    ((upload_claim fs tempName body).2.contains tempName) = false :=
  contains_filter_self (tempName :: fs) tempName

/-- C10: the verdict never depends on patientName or claimId: two
ClaimFields agreeing on hospital, disease, treatment and amount receive
the identical verdict pair from `check_fraud` against the same tables. -/
theorem verdict_ignores_patient_and_claim_id (a b : ClaimFields)
    (hs : List String) (ds : List (String × String))
    (hh : a.hospital = b.hospital) (hd : a.disease = b.disease)
    (ht : a.treatment = b.treatment) (ha : a.amount = b.amount) :
    check_fraud a hs ds = check_fraud b hs ds := by
  unfold check_fraud
  rw [hh, hd, ht, ha]

/-- Witness for C10: two claims differing only in patient name and claim
id. -/
theorem verdict_ignores_patient_and_claim_id_witness :
    check_fraud ⟨"AIIMS", "Cancer", "Radiation", 9000, "Alice", "A/1"⟩
      load_hospitals load_diseases =
    check_fraud ⟨"AIIMS", "Cancer", "Radiation", 9000, "Bob", "B/2"⟩
      load_hospitals load_diseases :=
  verdict_ignores_patient_and_claim_id _ _ load_hospitals load_diseases
    rfl rfl rfl rfl

end FraudInsurance
